import Mathlib

/-!
Verification of the Wilson Telematics realtime backend.

The definitions below are a shallow embedding of the JavaScript sources:
* `src/realtimePipeline.js` (primary variant): `classifyRisk`, `mpsToMph`,
  `toNumber`, `handleDeviceUpdate`, the `liveDevices` / `liveEvents` caches
  and the `MAX_EVENTS` bound.
* `src/realtimePipeline.js` (variant with `connectWebSocket`, also present as
  `src/unnamed/part_000`): `loginForRealtime`, `handleAuthErrorAndReconnect`
  and the reconnect delays (5 000 ms after an auth error, 60 000 ms for an
  ordinary close).
* `src/realtimeAuth.js`: `fetchNewTokenFromDamoov`, `getRealtimeJwt` and the
  60-second refresh window, plus an explicit interleaving model of concurrent
  `getRealtimeJwt` callers (the `await` of the HTTP post is the only
  suspension point inside the function).

JavaScript numbers are modelled as `Rat` (NaN is represented separately via
`JsVal.jnan`; non-finite values are out of scope), ISO timestamps as `Nat`
counters, and fallible network calls as explicit outcome parameters.
-/

namespace WilsonTelematics

/-- Risk tier strings returned by `classifyRisk` in `src/realtimePipeline.js`:
`'none' | 'mild' | 'medium' | 'severe'`. -/
inductive Risk where
  | none
  | mild
  | medium
  | severe
deriving DecidableEq

/-- `classifyRisk(overspeedMph)` from `src/realtimePipeline.js`.
Source:
`if (!overspeedMph || overspeedMph <= 0) return 'none';`
`if (overspeedMph >= 20) return 'severe';`
`if (overspeedMph >= 10) return 'medium';`
`if (overspeedMph >= 5) return 'mild';`
`return 'none';`
Over `Rat` the JS guard `!o || o <= 0` is exactly `o ≤ 0`
(`!o` holds for `0` and `NaN`; `NaN` never reaches this function because
`overspeedMph` is produced by `Math.max(0, ...)` on finite numbers). -/
def classifyRisk (overspeedMph : Rat) : Risk :=
  if overspeedMph ≤ 0 then Risk.none
  else if 20 ≤ overspeedMph then Risk.severe
  else if 10 ≤ overspeedMph then Risk.medium
  else if 5 ≤ overspeedMph then Risk.mild
  else Risk.none

/-- Severity order `none < mild < medium < severe` used to state monotonicity. -/
def riskRank : Risk → Nat
  | Risk.none => 0
  | Risk.mild => 1
  | Risk.medium => 2
  | Risk.severe => 3

/-- Two overspeed values lie in the same band of the classifier
(`(-∞,5)`, `[5,10)`, `[10,20)`, `[20,∞)`). -/
def sameBand (a b : Rat) : Prop :=
  (a < 5 ∧ b < 5) ∨ (5 ≤ a ∧ a < 10 ∧ 5 ≤ b ∧ b < 10) ∨
    (10 ≤ a ∧ a < 20 ∧ 10 ≤ b ∧ b < 20) ∨ (20 ≤ a ∧ 20 ≤ b)

namespace RealtimeAuth

/-- In-memory credential cache of `src/realtimeAuth.js`: the module-level
variables `cachedToken` (a JWT string or `null`) and `cachedExpiresAt`
(a millisecond timestamp, initially `0`). -/
structure AuthState where
  cachedToken : Option String
  cachedExpiresAt : Int
deriving DecidableEq

/-- `safetyWindowMs = 60_000` in `getRealtimeJwt`: refresh 60 seconds early. -/
def safetyWindowMs : Int := 60000

/-- Outcome of the `axios.post` login exchange inside
`fetchNewTokenFromDamoov`, made explicit because the network is outside the
program: `missingConfig` (required env identifiers absent, no request made),
`success token expiresInSec` (2xx response carrying `AccessToken.Token` and a
resolved expiry — the code defaults `ExpiresIn` to `24*60*60` when absent),
`httpError` (thrown request error) and `missingTokenField` (2xx response
without a parsable token). -/
inductive FetchOutcome where
  | missingConfig
  | success (token : String) (expiresInSec : Int)
  | httpError
  | missingTokenField
deriving DecidableEq

/-- `fetchNewTokenFromDamoov()` from `src/realtimeAuth.js`, as a transition on
the cache state returning the token it yields (`null` = `Option.none`).
On success it sets `cachedToken`/`cachedExpiresAt`; on every failure path
(missing config, thrown error, missing/empty token field) it returns `null`
without touching the cache. The `if (!token)` truthiness check makes an empty
token string a failure as well. -/
def fetchNewTokenFromDamoov (st : AuthState) (now : Int) (o : FetchOutcome) :
    AuthState × Option String :=
  match o with
  | FetchOutcome.missingConfig => (st, Option.none)
  | FetchOutcome.success token expiresInSec =>
    if token = "" then (st, Option.none)
    else ({ cachedToken := some token, cachedExpiresAt := now + expiresInSec * 1000 },
      some token)
  | FetchOutcome.httpError => (st, Option.none)
  | FetchOutcome.missingTokenField => (st, Option.none)

/-- JS truthiness of `cachedToken` (`null` and the empty string are falsy). -/
def tokenTruthy : Option String → Bool
  | Option.none => false
  | some t => t != ""

/-- Result of one `getRealtimeJwt()` call: the cache state it leaves behind,
the value it returns, and whether it attempted a refresh (i.e. reached the
`fetchNewTokenFromDamoov` call instead of returning the cached token). -/
structure GetResult where
  state : AuthState
  result : Option String
  refreshAttempted : Bool
deriving DecidableEq

/-- `getRealtimeJwt()` from `src/realtimeAuth.js`.
Source: `if (cachedToken && now < cachedExpiresAt - safetyWindowMs) return cachedToken;`
then `const freshToken = await fetchNewTokenFromDamoov(); if (freshToken) return freshToken;`
then `if (FALLBACK_STATIC_JWT) return FALLBACK_STATIC_JWT; return null;`.
`fallbackStaticJwt` models the `DAMOOV_REALTIME_JWT` env override
(`Option.none` = unset; a set-but-empty string is falsy in the `if`). -/
def getRealtimeJwt (st : AuthState) (now : Int) (o : FetchOutcome)
    (fallbackStaticJwt : Option String) : GetResult :=
  if tokenTruthy st.cachedToken = true ∧ now < st.cachedExpiresAt - safetyWindowMs then
    { state := st, result := st.cachedToken, refreshAttempted := false }
  else
    match fetchNewTokenFromDamoov st now o with
    | (st1, some freshToken) =>
      { state := st1, result := some freshToken, refreshAttempted := true }
    | (st1, Option.none) =>
      match fallbackStaticJwt with
      | some f =>
        if f = "" then { state := st1, result := Option.none, refreshAttempted := true }
        else { state := st1, result := some f, refreshAttempted := true }
      | Option.none => { state := st1, result := Option.none, refreshAttempted := true }

/-- The value `getRealtimeJwt` falls back to when the refresh fails: the
configured static override if truthy, otherwise absence. -/
def fallbackOr : Option String → Option String
  | Option.none => Option.none
  | some f => if f = "" then Option.none else some f

end RealtimeAuth

namespace Pipeline

/-- Value of a JSON field as seen by `handleDeviceUpdate`.
`jnull` is JS `null`; `jnum q` is any non-null value whose `Number(...)`
coercion is the finite number `q` (actual numbers and numeric strings alike);
`jnan` is any non-null value whose `Number(...)` coercion is `NaN`.
An absent / `undefined` field is `Option.none` at the use site.
Non-finite coercions (`Infinity`) are outside the model. -/
inductive JsVal where
  | jnull
  | jnum (q : Rat)
  | jnan
deriving DecidableEq

/-- `toNumber(v)` from `src/realtimePipeline.js`:
`if (v === null || v === undefined) return null;`
`const n = Number(v); return Number.isNaN(n) ? null : n;`. -/
def toNumber : Option JsVal → Option Rat
  | Option.none => Option.none
  | some JsVal.jnull => Option.none
  | some (JsVal.jnum q) => some q
  | some JsVal.jnan => Option.none

/-- The JS nullish-coalescing operator `a ?? b` on field values
(`null` and `undefined` fall through, everything else is kept). -/
def jsCoalesce (a b : Option JsVal) : Option JsVal :=
  match a with
  | Option.none => b
  | some JsVal.jnull => b
  | some v => some v

/-- JS loose `v != null`, which is false exactly for `null` and `undefined`. -/
def notNullish : Option JsVal → Bool
  | Option.none => false
  | some JsVal.jnull => false
  | some _ => true

/-- The `data.position` / `data.Position` object of a `device_update` message,
with every key spelling `handleDeviceUpdate` probes. `Option.none` fields are
absent. `coordinates` is the optional GeoJSON-style array probed as
`pos.coordinates && pos.coordinates[1]` / `[0]` (a `null` coordinates value
behaves like an absent one there, so it is collapsed into `Option.none`). -/
structure PositionPayload where
  lat : Option JsVal := Option.none
  latitude : Option JsVal := Option.none
  lon : Option JsVal := Option.none
  longitude : Option JsVal := Option.none
  coordinates : Option (List JsVal) := Option.none
  speed : Option JsVal := Option.none
  Speed : Option JsVal := Option.none
  speed_limit : Option JsVal := Option.none
  speedLimit : Option JsVal := Option.none
  speed_limit_mps : Option JsVal := Option.none
deriving DecidableEq

/-- A `device_update` message as consumed by `handleDeviceUpdate`: the two
device-token spellings and the two position-object spellings (`Option.none`
covers absent, `undefined` and `null` objects, all of which are falsy in the
`data.position || data.Position || {}` chain). -/
structure DeviceUpdateMsg where
  device_token : Option String := Option.none
  deviceToken : Option String := Option.none
  position : Option PositionPayload := Option.none
  Position : Option PositionPayload := Option.none
deriving DecidableEq

/-- `data.position || data.Position || {}`. -/
def posOf (data : DeviceUpdateMsg) : PositionPayload :=
  match data.position with
  | some p => p
  | Option.none =>
    match data.Position with
    | some p => p
    | Option.none => {}

/-- JS truthiness of an optional string (`undefined` and `''` are falsy). -/
def strTruthy : Option String → Bool
  | Option.none => false
  | some s => s != ""

/-- `data.device_token || data.deviceToken || 'unknown-device'`. -/
def deviceTokenOf (data : DeviceUpdateMsg) : String :=
  if strTruthy data.device_token then data.device_token.getD ""
  else if strTruthy data.deviceToken then data.deviceToken.getD ""
  else "unknown-device"

/-- `pos.coordinates && pos.coordinates[1]` (the latitude candidate). -/
def coordinatesAt1 (pos : PositionPayload) : Option JsVal :=
  match pos.coordinates with
  | Option.none => Option.none
  | some arr => arr.get? 1

/-- `pos.coordinates && pos.coordinates[0]` (the longitude candidate). -/
def coordinatesAt0 (pos : PositionPayload) : Option JsVal :=
  match pos.coordinates with
  | Option.none => Option.none
  | some arr => arr.get? 0

/-- `pos.lat ?? pos.latitude ?? (pos.coordinates && pos.coordinates[1])`. -/
def latOf (pos : PositionPayload) : Option JsVal :=
  jsCoalesce pos.lat (jsCoalesce pos.latitude (coordinatesAt1 pos))

/-- `pos.lon ?? pos.longitude ?? (pos.coordinates && pos.coordinates[0])`. -/
def lonOf (pos : PositionPayload) : Option JsVal :=
  jsCoalesce pos.lon (jsCoalesce pos.longitude (coordinatesAt0 pos))

/-- `speedMps = toNumber(pos.speed ?? pos.Speed)`. -/
def speedMpsOf (pos : PositionPayload) : Option Rat :=
  toNumber (jsCoalesce pos.speed pos.Speed)

/-- `speedLimitMps = toNumber(pos.speed_limit ?? pos.speedLimit ?? pos.speed_limit_mps)`. -/
def speedLimitMpsOf (pos : PositionPayload) : Option Rat :=
  toNumber (jsCoalesce pos.speed_limit (jsCoalesce pos.speedLimit pos.speed_limit_mps))

/-- `mpsToMph(v) = v * 2.23694` from `src/realtimePipeline.js`. -/
def mpsToMph (v : Rat) : Rat := v * 2.23694

/-- `overspeedMph` in `handleDeviceUpdate`: starts at `0` and becomes
`Math.max(0, mph - limitMph)` only when both speeds parsed. -/
def overspeedMphOf (pos : PositionPayload) : Rat :=
  match speedMpsOf pos, speedLimitMpsOf pos with
  | some s, some l => max 0 (mpsToMph s - mpsToMph l)
  | _, _ => 0

/-- The risk tier `handleDeviceUpdate` computes for a message. -/
def riskLevelOf (pos : PositionPayload) : Risk :=
  classifyRisk (overspeedMphOf pos)

/-- The `{ lat, lon }` object stored in a snapshot's `position` field: the
raw resolved values, kept only when both pass the loose `!= null` check. -/
structure LatLon where
  lat : JsVal
  lon : JsVal
deriving DecidableEq

/-- `lat != null && lon != null ? { lat, lon } : null`. -/
def positionEntryOf (pos : PositionPayload) : Option LatLon :=
  if notNullish (latOf pos) ∧ notNullish (lonOf pos) then
    match latOf pos, lonOf pos with
    | some a, some b => some { lat := a, lon := b }
    | _, _ => Option.none
  else Option.none

/-- One entry of the `liveDevices` cache
(`{ lastUpdateAt, riskLevel, overspeedMph, speedMps, speedLimitMps, position, raw }`).
`lastUpdateAt` is the ISO timestamp `nowIso`, modelled as a `Nat` counter. -/
structure DeviceSnapshot where
  lastUpdateAt : Nat
  riskLevel : Risk
  overspeedMph : Rat
  speedMps : Option Rat
  speedLimitMps : Option Rat
  position : Option LatLon
  raw : DeviceUpdateMsg
deriving DecidableEq

/-- The snapshot object assigned to `liveDevices[deviceToken]`. -/
def mkSnapshot (nowIso : Nat) (data : DeviceUpdateMsg) : DeviceSnapshot :=
  { lastUpdateAt := nowIso
    riskLevel := riskLevelOf (posOf data)
    overspeedMph := overspeedMphOf (posOf data)
    speedMps := speedMpsOf (posOf data)
    speedLimitMps := speedLimitMpsOf (posOf data)
    position := positionEntryOf (posOf data)
    raw := data }

/-- One entry of the `liveEvents` list
(`{ time, deviceToken, riskLevel, overspeedMph, lat, lon }`; `lat` / `lon`
are the raw resolved values, possibly still absent). -/
structure RiskEvent where
  time : Nat
  deviceToken : String
  riskLevel : Risk
  overspeedMph : Rat
  lat : Option JsVal
  lon : Option JsVal
deriving DecidableEq

/-- The event object `handleDeviceUpdate` unshifts onto `liveEvents`. -/
def mkEvent (nowIso : Nat) (data : DeviceUpdateMsg) : RiskEvent :=
  { time := nowIso
    deviceToken := deviceTokenOf data
    riskLevel := riskLevelOf (posOf data)
    overspeedMph := overspeedMphOf (posOf data)
    lat := latOf (posOf data)
    lon := lonOf (posOf data) }

/-- `const MAX_EVENTS = 200`. -/
def MAX_EVENTS : Nat := 200

/-- JS object assignment `liveDevices[deviceToken] = snap`: replace the entry
for an existing key in place, otherwise append a new key (JS objects keep one
value per key, in insertion order). -/
def upsert (k : String) (v : DeviceSnapshot) :
    List (String × DeviceSnapshot) → List (String × DeviceSnapshot)
  | [] => [(k, v)]
  | (k2, v2) :: rest => if k2 = k then (k, v) :: rest else (k2, v2) :: upsert k v rest

/-- JS object read `liveDevices[token]`. -/
def lookup (k : String) : List (String × DeviceSnapshot) → Option DeviceSnapshot
  | [] => Option.none
  | (k2, v2) :: rest => if k2 = k then some v2 else lookup k rest

/-- The module-level mutable caches of `src/realtimePipeline.js`:
`liveDevices` (object keyed by device token) and `liveEvents`
(array, most recent first). -/
structure PipelineState where
  liveDevices : List (String × DeviceSnapshot)
  liveEvents : List RiskEvent
deriving DecidableEq

/-- Initial module state: `const liveDevices = {}` and `const liveEvents = []`. -/
def initialPipelineState : PipelineState := { liveDevices := [], liveEvents := [] }

/-- `handleDeviceUpdate(data)` from `src/realtimePipeline.js`, with `nowIso`
(`new Date().toISOString()`) passed explicitly. Writes the snapshot into
`liveDevices`, and when the tier is not `'none'` unshifts a `RiskEvent` and
truncates `liveEvents` to `MAX_EVENTS` (`liveEvents.length = MAX_EVENTS`). -/
def handleDeviceUpdate (nowIso : Nat) (data : DeviceUpdateMsg) (st : PipelineState) :
    PipelineState :=
  { liveDevices := upsert (deviceTokenOf data) (mkSnapshot nowIso data) st.liveDevices
    liveEvents :=
      if riskLevelOf (posOf data) ≠ Risk.none then
        (mkEvent nowIso data :: st.liveEvents).take MAX_EVENTS
      else st.liveEvents }

/-- Process a sequence of `device_update` messages in arrival order, each
tagged with its `nowIso` timestamp. -/
def deviceUpdates : List (Nat × DeviceUpdateMsg) → PipelineState → PipelineState
  | [], st => st
  | (t, m) :: rest, st => deviceUpdates rest (handleDeviceUpdate t m st)

/-- The `RiskEvent` a single message contributes, if any (exactly when its
tier is not `'none'`). -/
def riskEventOf (t : Nat) (m : DeviceUpdateMsg) : Option RiskEvent :=
  if riskLevelOf (posOf m) ≠ Risk.none then some (mkEvent t m) else Option.none

/-- All risk events a message sequence generates, oldest first. -/
def genEvents (msgs : List (Nat × DeviceUpdateMsg)) : List RiskEvent :=
  msgs.filterMap (fun p => riskEventOf p.1 p.2)

/-- Sample message: speed 20 m/s against limit 0 m/s (overspeed ≈ 44.7 mph,
tier `severe`), used to instantiate theorems at concrete inputs. -/
def sampleRiskyMsg : DeviceUpdateMsg :=
  { device_token := some "device-a"
    position := some { speed := some (JsVal.jnum 20), speed_limit := some (JsVal.jnum 0) } }

/-- Sample message: speed equal to the limit (10 m/s each). -/
def sampleEqualMsg : DeviceUpdateMsg :=
  { device_token := some "device-b"
    position := some { speed := some (JsVal.jnum 10), speed_limit := some (JsVal.jnum 10) } }

/-- Sample message: a parsable limit but no speed field at all. -/
def sampleNoSpeedMsg : DeviceUpdateMsg :=
  { device_token := some "device-c"
    position := some { speed_limit := some (JsVal.jnum 10) } }

/-- Sample chronological message sequence for the event-log theorems. -/
def sampleMsgs : List (Nat × DeviceUpdateMsg) :=
  [(1, sampleRiskyMsg), (2, sampleEqualMsg), (3, sampleRiskyMsg)]

end Pipeline

namespace AuthReconnect

/-!
Model of the `connectWebSocket` variant of `src/realtimePipeline.js`
(also present verbatim as `src/unnamed/part_000`): the module state
`currentJwt`, the `loginForRealtime` exchange, and the `error`-message branch
of the `ws.on('message')` handler, whose 401/403 case calls
`handleAuthErrorAndReconnect`.
-/

/-- Outcome of one `loginForRealtime()` call: `missingCreds` (required env
settings absent — the function returns `null` before any request),
`success token` (the Auth/Login response carried `AccessToken.Token`),
`failure` (thrown request error or a response without a token). -/
inductive LoginOutcome where
  | missingCreds
  | success (token : String)
  | failure
deriving DecidableEq

/-- Module state of the variant: `currentJwt` (`null` initially) and whether
the current WebSocket transport is open. -/
structure ConnState where
  currentJwt : Option String
  socketOpen : Bool
deriving DecidableEq

/-- Externally visible side effects of the handler. -/
inductive ConnAction where
  | loginExchange
  | closeSocket
  | scheduleReconnect (delayMs : Nat)
deriving DecidableEq

/-- `loginForRealtime()`: on success sets `currentJwt = token` and returns it;
on failure returns `null` leaving `currentJwt` as it was. The `if (!token)`
check makes an empty token a failure. The emitted action records whether an
HTTP login exchange was actually issued. -/
def loginForRealtime (st : ConnState) (o : LoginOutcome) :
    ConnState × Option String × List ConnAction :=
  match o with
  | LoginOutcome.missingCreds => (st, Option.none, [])
  | LoginOutcome.success token =>
    if token = "" then (st, Option.none, [ConnAction.loginExchange])
    else ({ st with currentJwt := some token }, some token, [ConnAction.loginExchange])
  | LoginOutcome.failure => (st, Option.none, [ConnAction.loginExchange])

/-- The shortened reconnect delay used after an auth error: `5_000` ms. -/
def SHORT_RECONNECT_DELAY_MS : Nat := 5000

/-- The ordinary reconnect delay of the `close` handler: `60_000` ms. -/
def ORDINARY_RECONNECT_DELAY_MS : Nat := 60000

/-- `handleAuthErrorAndReconnect(socket)`: clear `currentJwt`, run
`loginForRealtime()`, close the socket, and schedule a reconnect after
`5_000` ms. -/
def handleAuthErrorAndReconnect (st : ConnState) (o : LoginOutcome) :
    ConnState × List ConnAction :=
  match loginForRealtime { st with currentJwt := Option.none } o with
  | (st2, _, acts) =>
    ({ st2 with socketOpen := false },
      acts ++ [ConnAction.closeSocket,
        ConnAction.scheduleReconnect SHORT_RECONNECT_DELAY_MS])

/-- Actions of the `ws.on('close')` handler: schedule a reconnect after
`60_000` ms. -/
def onSocketCloseActions : List ConnAction :=
  [ConnAction.scheduleReconnect ORDINARY_RECONNECT_DELAY_MS]

/-- The `error` case of the message handler: log, and when
`data.code === 401 || data.code === 403` run `handleAuthErrorAndReconnect`. -/
def handleErrorMessage (code : Int) (st : ConnState) (o : LoginOutcome) :
    ConnState × List ConnAction :=
  if code = 401 ∨ code = 403 then handleAuthErrorAndReconnect st o else (st, [])

end AuthReconnect

namespace RealtimeAuth

/-!
Interleaving model of concurrent `getRealtimeJwt()` callers from
`src/realtimeAuth.js`. Inside one call the only suspension point is the
`await` of the `axios.post` in `fetchNewTokenFromDamoov`; everything from the
cache check down to issuing the HTTP request runs atomically on the event
loop, and the response handling (writing `cachedToken` / `cachedExpiresAt`
and returning) is again atomic. A caller is therefore a two-step machine:
`ready` (about to run the cache check) and `awaitingFetch` (suspended on the
HTTP exchange it has already issued).
-/

/-- Phase of one concurrent `getRealtimeJwt` caller. -/
inductive CallerPhase where
  | ready
  | awaitingFetch
  | done (result : Option String)
deriving DecidableEq

/-- Shared state: the module-level credential cache, the number of login
exchanges issued so far, and the phase of each caller. -/
structure ConcState where
  cachedToken : Option String
  cachedExpiresAt : Int
  exchanges : Nat
  callers : List CallerPhase
deriving DecidableEq

/-- The guard of `getRealtimeJwt`:
`cachedToken && now < cachedExpiresAt - safetyWindowMs`. -/
def cacheUsable (tok : Option String) (expiresAt : Int) (now : Int) : Bool :=
  tokenTruthy tok && decide (now < expiresAt - safetyWindowMs)

/-- Run caller `i` until its next suspension point (or to completion).
A `ready` caller whose cache check succeeds returns the cached token; one
whose check fails issues a login exchange (incrementing `exchanges`) and
suspends. An `awaitingFetch` caller resumes when its exchange succeeds with
`freshTok`, writes the cache and returns the fresh token. -/
def stepCaller (now : Int) (freshTok : String) (expiresInSec : Int) (i : Nat)
    (st : ConcState) : ConcState :=
  match st.callers.get? i with
  | Option.none => st
  | some CallerPhase.ready =>
    if cacheUsable st.cachedToken st.cachedExpiresAt now then
      { st with callers := st.callers.set i (CallerPhase.done st.cachedToken) }
    else
      { st with
          exchanges := st.exchanges + 1
          callers := st.callers.set i CallerPhase.awaitingFetch }
  | some CallerPhase.awaitingFetch =>
    { st with
        cachedToken := some freshTok
        cachedExpiresAt := now + expiresInSec * 1000
        callers := st.callers.set i (CallerPhase.done (some freshTok)) }
  | some (CallerPhase.done _) => st

/-- Run a schedule: an interleaving given as the list of caller indices that
get to run, in order. -/
def runSchedule (now : Int) (freshTok : String) (expiresInSec : Int) :
    List Nat → ConcState → ConcState
  | [], st => st
  | i :: rest, st =>
    runSchedule now freshTok expiresInSec rest (stepCaller now freshTok expiresInSec i st)

/-- `n` callers about to call `getRealtimeJwt` while the cache is empty
(`cachedToken = null`, `cachedExpiresAt = 0`) and no exchange is in flight. -/
def initConc (n : Nat) : ConcState :=
  { cachedToken := Option.none, cachedExpiresAt := 0, exchanges := 0,
    callers := List.replicate n CallerPhase.ready }

end RealtimeAuth

end WilsonTelematics

namespace WilsonTelematics

lemma classifyRisk_of_lt_five {o : Rat} (h : o < 5) : classifyRisk o = Risk.none := by
  unfold classifyRisk
  split_ifs <;> first | rfl | linarith

lemma classifyRisk_of_five_le_lt_ten {o : Rat} (h5 : 5 ≤ o) (h10 : o < 10) :
    classifyRisk o = Risk.mild := by
  unfold classifyRisk
  split_ifs <;> first | rfl | linarith

lemma classifyRisk_of_ten_le_lt_twenty {o : Rat} (h10 : 10 ≤ o) (h20 : o < 20) :
    classifyRisk o = Risk.medium := by
  unfold classifyRisk
  split_ifs <;> first | rfl | linarith

lemma classifyRisk_of_twenty_le {o : Rat} (h : 20 ≤ o) : classifyRisk o = Risk.severe := by
  unfold classifyRisk
  split_ifs <;> first | rfl | linarith

/-- C1: `classifyRisk` returns `none` for overspeed `< 5` (including zero and
negative inputs), `mild` on `[5,10)`, `medium` on `[10,20)` and `severe` on
`[20,∞)`; being a Lean function of its argument it is deterministic, total and
side-effect free. -/
theorem classifyRisk_bands (o : Rat) :
    (o < 5 → classifyRisk o = Risk.none) ∧
    (5 ≤ o → o < 10 → classifyRisk o = Risk.mild) ∧
    (10 ≤ o → o < 20 → classifyRisk o = Risk.medium) ∧
    (20 ≤ o → classifyRisk o = Risk.severe) :=
  ⟨fun h => classifyRisk_of_lt_five h,
   fun h5 h10 => classifyRisk_of_five_le_lt_ten h5 h10,
   fun h10 h20 => classifyRisk_of_ten_le_lt_twenty h10 h20,
   fun h => classifyRisk_of_twenty_le h⟩

/-- Witness for C1 at the concrete inputs `-3`, `0`, `7`, `12`, `25`. -/
theorem classifyRisk_bands_witness :
    classifyRisk (-3) = Risk.none ∧ classifyRisk 0 = Risk.none ∧
    classifyRisk 7 = Risk.mild ∧ classifyRisk 12 = Risk.medium ∧
    classifyRisk 25 = Risk.severe :=
  ⟨(classifyRisk_bands (-3)).1 (by norm_num),
   (classifyRisk_bands 0).1 (by norm_num),
   (classifyRisk_bands 7).2.1 (by norm_num) (by norm_num),
   (classifyRisk_bands 12).2.2.1 (by norm_num) (by norm_num),
   (classifyRisk_bands 25).2.2.2 (by norm_num)⟩

/-- C9: the severity of `classifyRisk` is monotone non-decreasing in the
overspeed (ordering `none < mild < medium < severe`), is constant on each of
the bands delimited by `5`, `10`, `20`, and changes across each of those three
boundaries — so the severity changes exactly at `5`, `10` and `20`. -/
theorem classifyRisk_monotone_boundaries :
    (∀ a b : Rat, a ≤ b → riskRank (classifyRisk a) ≤ riskRank (classifyRisk b)) ∧
    (∀ a b : Rat, sameBand a b → classifyRisk a = classifyRisk b) ∧
    classifyRisk 4 ≠ classifyRisk 5 ∧
    classifyRisk 9 ≠ classifyRisk 10 ∧
    classifyRisk 19 ≠ classifyRisk 20 := by
  refine ⟨?_, ?_, ?_, ?_, ?_⟩
  · intro a b hab
    unfold classifyRisk
    split_ifs <;> simp only [riskRank] <;> first | (exfalso; linarith) | norm_num
  · intro a b hband
    rcases hband with ⟨ha, hb⟩ | ⟨ha1, ha2, hb1, hb2⟩ | ⟨ha1, ha2, hb1, hb2⟩ | ⟨ha, hb⟩
    · rw [classifyRisk_of_lt_five ha, classifyRisk_of_lt_five hb]
    · rw [classifyRisk_of_five_le_lt_ten ha1 ha2, classifyRisk_of_five_le_lt_ten hb1 hb2]
    · rw [classifyRisk_of_ten_le_lt_twenty ha1 ha2, classifyRisk_of_ten_le_lt_twenty hb1 hb2]
    · rw [classifyRisk_of_twenty_le ha, classifyRisk_of_twenty_le hb]
  · rw [classifyRisk_of_lt_five (by norm_num),
      classifyRisk_of_five_le_lt_ten (by norm_num) (by norm_num)]
    intro h
    exact Risk.noConfusion h
  · rw [classifyRisk_of_five_le_lt_ten (by norm_num) (by norm_num),
      classifyRisk_of_ten_le_lt_twenty (by norm_num) (by norm_num)]
    intro h
    exact Risk.noConfusion h
  · rw [classifyRisk_of_ten_le_lt_twenty (by norm_num) (by norm_num),
      classifyRisk_of_twenty_le (by norm_num)]
    intro h
    exact Risk.noConfusion h

/-- Witness for C9: monotonicity applied at the concrete pair `3 ≤ 22`, and
band constancy applied at the concrete pair `11`, `19`. -/
theorem classifyRisk_monotone_boundaries_witness :
    riskRank (classifyRisk 3) ≤ riskRank (classifyRisk 22) ∧
    classifyRisk 11 = classifyRisk 19 :=
  ⟨classifyRisk_monotone_boundaries.1 3 22 (by norm_num),
   classifyRisk_monotone_boundaries.2.1 11 19 (Or.inr (Or.inr (Or.inl
     ⟨by norm_num, by norm_num, by norm_num, by norm_num⟩)))⟩

namespace RealtimeAuth

/-- C5: with a cached credential present, `getRealtimeJwt` returns the cached
token without attempting a login exchange exactly when
`now < cachedExpiresAt - 60_000`; in every other situation (cache absent,
cache empty, or inside the 60-second window) it attempts a refresh instead,
so the cached credential is never handed out for new authentication inside
the refresh window. -/
theorem getRealtimeJwt_refresh_window (st : AuthState) (now : Int) (o : FetchOutcome)
    (fb : Option String) :
    ((getRealtimeJwt st now o fb).refreshAttempted = false ↔
      tokenTruthy st.cachedToken = true ∧ now < st.cachedExpiresAt - safetyWindowMs) ∧
    ((getRealtimeJwt st now o fb).refreshAttempted = false →
      (getRealtimeJwt st now o fb).result = st.cachedToken) := by
  by_cases h : tokenTruthy st.cachedToken = true ∧ now < st.cachedExpiresAt - safetyWindowMs
  · unfold getRealtimeJwt
    rw [if_pos h]
    exact ⟨⟨fun _ => h, fun _ => rfl⟩, fun _ => rfl⟩
  · have hT : (getRealtimeJwt st now o fb).refreshAttempted = true := by
      unfold getRealtimeJwt
      rw [if_neg h]
      rcases hfetch : fetchNewTokenFromDamoov st now o with ⟨st1, tok⟩
      cases tok
      · cases fb
        · rfl
        · rename_i f
          by_cases hf : f = "" <;> simp [hf]
      · rfl
    refine ⟨⟨fun hfalse => ?_, fun hvalid => absurd hvalid h⟩, fun hfalse => ?_⟩ <;>
      rw [hT] at hfalse <;> exact Bool.noConfusion hfalse

/-- Witness for C5: a valid cached token (`now = 0`, expiry `1_000_000` ms) is
returned unchanged, with no refresh attempted. -/
theorem getRealtimeJwt_refresh_window_witness :
    (getRealtimeJwt ⟨some "cached-jwt", 1000000⟩ 0 FetchOutcome.httpError
      Option.none).result = some "cached-jwt" :=
  (getRealtimeJwt_refresh_window ⟨some "cached-jwt", 1000000⟩ 0 FetchOutcome.httpError
    Option.none).2 (by decide)

/-- C6: when the refresh fails (missing config, network error, or a response
without the token field), `fetchNewTokenFromDamoov` leaves the cached
credential and its expiry untouched, and `getRealtimeJwt` (in the branch that
attempted the refresh) returns the statically configured override credential
when one is configured and absence (`null`) otherwise. -/
theorem getRealtimeJwt_refresh_failure (st : AuthState) (now : Int) (o : FetchOutcome)
    (fb : Option String)
    (hfail : o = FetchOutcome.missingConfig ∨ o = FetchOutcome.httpError ∨
      o = FetchOutcome.missingTokenField)
    (hrefresh : ¬(tokenTruthy st.cachedToken = true ∧
      now < st.cachedExpiresAt - safetyWindowMs)) :
    (fetchNewTokenFromDamoov st now o).1 = st ∧
    (getRealtimeJwt st now o fb).state = st ∧
    (getRealtimeJwt st now o fb).result = fallbackOr fb := by
  have hfetch : fetchNewTokenFromDamoov st now o = (st, Option.none) := by
    rcases hfail with h | h | h <;> subst h <;> rfl
  unfold getRealtimeJwt
  rw [if_neg hrefresh]
  rw [hfetch]
  refine ⟨rfl, ?_, ?_⟩ <;>
    cases fb <;>
    simp only [fallbackOr] <;>
    first
      | rfl
      | (rename_i f; by_cases hf : f = "" <;> simp [hf])

/-- Witness for C6: an expired cache (`now = 70_000`, expiry `100_000` ms, so
inside the 60 s window) plus a failed network exchange leaves the cache
untouched and falls back to the configured static override. -/
theorem getRealtimeJwt_refresh_failure_witness :
    (fetchNewTokenFromDamoov ⟨some "stale-jwt", 100000⟩ 70000 FetchOutcome.httpError).1 =
      (⟨some "stale-jwt", 100000⟩ : AuthState) ∧
    (getRealtimeJwt ⟨some "stale-jwt", 100000⟩ 70000 FetchOutcome.httpError
      (some "override-jwt")).state = (⟨some "stale-jwt", 100000⟩ : AuthState) ∧
    (getRealtimeJwt ⟨some "stale-jwt", 100000⟩ 70000 FetchOutcome.httpError
      (some "override-jwt")).result = fallbackOr (some "override-jwt") :=
  getRealtimeJwt_refresh_failure ⟨some "stale-jwt", 100000⟩ 70000 FetchOutcome.httpError
    (some "override-jwt") (Or.inr (Or.inl rfl)) (by decide)

end RealtimeAuth

namespace Pipeline

lemma take_append_take {α : Type} (n : Nat) (a b : List α) :
    (a ++ b.take n).take n = (a ++ b).take n := by
  rw [List.take_append_eq_append_take, List.take_append_eq_append_take, List.take_take,
    Nat.min_eq_left (Nat.sub_le n a.length)]

lemma lookup_upsert_self (k : String) (v : DeviceSnapshot) :
    ∀ l, lookup k (upsert k v l) = some v := by
  intro l
  induction l with
  | nil => simp [upsert, lookup]
  | cons p rest ih =>
    by_cases h : p.1 = k <;> simp [upsert, lookup, h, ih]

lemma lookup_upsert_ne (k k2 : String) (v : DeviceSnapshot) (h : k2 ≠ k) :
    ∀ l, lookup k2 (upsert k v l) = lookup k2 l := by
  intro l
  have hne : ¬k = k2 := fun hk => h hk.symm
  induction l with
  | nil => simp [upsert, lookup, hne]
  | cons p rest ih =>
    rcases p with ⟨k1, v1⟩
    by_cases hp : k1 = k
    · subst hp
      simp [upsert, lookup, hne]
    · by_cases hp2 : k1 = k2 <;> simp [upsert, lookup, hp, hp2, h, hne, ih]

lemma length_upsert_of_lookup_none (k : String) (v : DeviceSnapshot) :
    ∀ l, lookup k l = Option.none → (upsert k v l).length = l.length + 1 := by
  intro l
  induction l with
  | nil => intro _; simp [upsert]
  | cons p rest ih =>
    intro hl
    by_cases h : p.1 = k
    · simp [lookup, h] at hl
    · simp only [lookup, h, if_false] at hl
      simp [upsert, h, ih hl]

lemma length_upsert_of_lookup_some (k : String) (v : DeviceSnapshot) :
    ∀ l old, lookup k l = some old → (upsert k v l).length = l.length := by
  intro l
  induction l with
  | nil => intro old h; simp [lookup] at h
  | cons p rest ih =>
    intro old hl
    by_cases h : p.1 = k
    · simp [upsert, h]
    · simp only [lookup, h, if_false] at hl
      simp [upsert, h, ih _ hl]

lemma mem_map_fst_upsert (k x : String) (v : DeviceSnapshot) :
    ∀ l, x ∈ (upsert k v l).map Prod.fst → x = k ∨ x ∈ l.map Prod.fst := by
  intro l
  induction l with
  | nil => intro h; simp [upsert] at h; exact Or.inl h
  | cons p rest ih =>
    intro h
    by_cases hp : p.1 = k
    · simp only [upsert, hp, if_true, List.map_cons, List.mem_cons] at h
      rcases h with h | h
      · exact Or.inl h
      · exact Or.inr (List.mem_cons_of_mem _ h)
    · simp only [upsert, hp, if_false, List.map_cons, List.mem_cons] at h
      rcases h with h | h
      · exact Or.inr (by simp [h])
      · rcases ih h with h2 | h2
        · exact Or.inl h2
        · exact Or.inr (List.mem_cons_of_mem _ h2)

lemma nodup_upsert (k : String) (v : DeviceSnapshot) :
    ∀ l, (l.map Prod.fst).Nodup → ((upsert k v l).map Prod.fst).Nodup := by
  intro l
  induction l with
  | nil => intro _; simp [upsert]
  | cons p rest ih =>
    intro hl
    rw [List.map_cons, List.nodup_cons] at hl
    by_cases hp : p.1 = k
    · simp only [upsert, hp, if_true, List.map_cons, List.nodup_cons]
      exact ⟨by rw [← hp]; exact hl.1, hl.2⟩
    · simp only [upsert, hp, if_false, List.map_cons, List.nodup_cons]
      refine ⟨fun hmem => ?_, ih hl.2⟩
      rcases mem_map_fst_upsert k p.1 v rest hmem with h | h
      · exact hp h
      · exact hl.1 h

lemma riskEventOf_time (t : Nat) (m : DeviceUpdateMsg) (e : RiskEvent)
    (h : riskEventOf t m = some e) : e.time = t := by
  unfold riskEventOf at h
  split at h
  · cases h; rfl
  · cases h

lemma genEvents_pairwise_time (msgs : List (Nat × DeviceUpdateMsg))
    (h : msgs.Pairwise (fun a b => a.1 ≤ b.1)) :
    (genEvents msgs).Pairwise (fun e1 e2 => e1.time ≤ e2.time) := by
  induction msgs with
  | nil => simp [genEvents]
  | cons p rest ih =>
    have hcons := List.pairwise_cons.mp h
    simp only [genEvents, List.filterMap_cons]
    cases hev : riskEventOf p.1 p.2 with
    | none => exact ih hcons.2
    | some e =>
      refine List.Pairwise.cons ?_ (ih hcons.2)
      intro e2 he2
      rcases List.mem_filterMap.mp he2 with ⟨q, hq, hqe⟩
      rw [riskEventOf_time p.1 p.2 e hev, riskEventOf_time q.1 q.2 e2 hqe]
      exact hcons.1 q hq

lemma deviceUpdates_liveEvents :
    ∀ (msgs : List (Nat × DeviceUpdateMsg)) (st : PipelineState),
      st.liveEvents.length ≤ MAX_EVENTS →
      (deviceUpdates msgs st).liveEvents =
        ((genEvents msgs).reverse ++ st.liveEvents).take MAX_EVENTS := by
  intro msgs
  induction msgs with
  | nil =>
    intro st h
    simp [deviceUpdates, genEvents, List.take_of_length_le h]
  | cons p rest ih =>
    intro st h
    rcases p with ⟨t, m⟩
    by_cases hrisk : riskLevelOf (posOf m) ≠ Risk.none
    · have hstep : (handleDeviceUpdate t m st).liveEvents =
          (mkEvent t m :: st.liveEvents).take MAX_EVENTS := by
        simp [handleDeviceUpdate, hrisk]
      have hlen : (handleDeviceUpdate t m st).liveEvents.length ≤ MAX_EVENTS := by
        rw [hstep, List.length_take]
        exact Nat.min_le_left _ _
      have hgen : genEvents ((t, m) :: rest) = mkEvent t m :: genEvents rest := by
        simp [genEvents, List.filterMap_cons, riskEventOf, hrisk]
      calc (deviceUpdates ((t, m) :: rest) st).liveEvents
          = (deviceUpdates rest (handleDeviceUpdate t m st)).liveEvents := rfl
        _ = ((genEvents rest).reverse ++ (handleDeviceUpdate t m st).liveEvents).take
              MAX_EVENTS := ih _ hlen
        _ = ((genEvents rest).reverse ++
              (mkEvent t m :: st.liveEvents).take MAX_EVENTS).take MAX_EVENTS := by
              rw [hstep]
        _ = ((genEvents rest).reverse ++ (mkEvent t m :: st.liveEvents)).take MAX_EVENTS := by
              rw [take_append_take]
        _ = ((genEvents ((t, m) :: rest)).reverse ++ st.liveEvents).take MAX_EVENTS := by
              rw [hgen, List.reverse_cons, List.append_assoc, List.singleton_append]
    · have hstep : (handleDeviceUpdate t m st).liveEvents = st.liveEvents := by
        simp [handleDeviceUpdate, hrisk]
      have hgen : genEvents ((t, m) :: rest) = genEvents rest := by
        simp [genEvents, List.filterMap_cons, riskEventOf, hrisk]
      calc (deviceUpdates ((t, m) :: rest) st).liveEvents
          = (deviceUpdates rest (handleDeviceUpdate t m st)).liveEvents := rfl
        _ = ((genEvents rest).reverse ++ (handleDeviceUpdate t m st).liveEvents).take
              MAX_EVENTS := ih _ (by rw [hstep]; exact h)
        _ = ((genEvents ((t, m) :: rest)).reverse ++ st.liveEvents).take MAX_EVENTS := by
              rw [hstep, hgen]

/-- C2: after processing any sequence of `device_update` messages from the
initial state, `liveEvents` holds at most `MAX_EVENTS = 200` entries; it
consists of exactly the 200 newest generated risk events, newest first (so
inserting beyond capacity evicts the oldest entries); and whenever the
messages arrive in chronological order the list is ordered
most-recent-first. -/
theorem liveEvents_bounded_mostRecentFirst (msgs : List (Nat × DeviceUpdateMsg)) :
    (deviceUpdates msgs initialPipelineState).liveEvents.length ≤ MAX_EVENTS ∧
    (deviceUpdates msgs initialPipelineState).liveEvents =
      ((genEvents msgs).reverse).take MAX_EVENTS ∧
    (msgs.Pairwise (fun a b => a.1 ≤ b.1) →
      (deviceUpdates msgs initialPipelineState).liveEvents.Pairwise
        (fun e1 e2 => e2.time ≤ e1.time)) := by
  have hchar : (deviceUpdates msgs initialPipelineState).liveEvents =
      ((genEvents msgs).reverse).take MAX_EVENTS := by
    have := deviceUpdates_liveEvents msgs initialPipelineState
      (by simp [initialPipelineState])
    simpa [initialPipelineState] using this
  refine ⟨?_, hchar, ?_⟩
  · rw [hchar, List.length_take]
    exact Nat.min_le_left _ _
  · intro hchrono
    rw [hchar]
    have hrev : ((genEvents msgs).reverse).Pairwise (fun e1 e2 => e2.time ≤ e1.time) :=
      List.pairwise_reverse.mpr (genEvents_pairwise_time msgs hchrono)
    exact hrev.sublist (List.take_sublist _ _)

/-- Witness for C2 on the concrete three-message sequence `sampleMsgs`
(two risky updates around one tier-`none` update). -/
theorem liveEvents_bounded_mostRecentFirst_witness :
    (deviceUpdates sampleMsgs initialPipelineState).liveEvents.Pairwise
      (fun e1 e2 => e2.time ≤ e1.time) :=
  (liveEvents_bounded_mostRecentFirst sampleMsgs).2.2 (by decide)

/-- C3: `handleDeviceUpdate` appends a `RiskEvent` (at the head, with
truncation to capacity) exactly when the computed tier is not `'none'`; in
particular when the reported speed equals the limit the overspeed is `0`, the
tier is `'none'`, `liveEvents` is untouched, and the snapshot is still
written under the device token with `lastUpdateAt` equal to the fresh
timestamp. -/
theorem riskEvent_appended_iff (t : Nat) (m : DeviceUpdateMsg) (st : PipelineState) :
    (riskLevelOf (posOf m) ≠ Risk.none →
      (handleDeviceUpdate t m st).liveEvents =
        (mkEvent t m :: st.liveEvents).take MAX_EVENTS) ∧
    (riskLevelOf (posOf m) = Risk.none →
      (handleDeviceUpdate t m st).liveEvents = st.liveEvents) ∧
    (∀ s : Rat, speedMpsOf (posOf m) = some s → speedLimitMpsOf (posOf m) = some s →
      overspeedMphOf (posOf m) = 0 ∧
      riskLevelOf (posOf m) = Risk.none ∧
      (handleDeviceUpdate t m st).liveEvents = st.liveEvents ∧
      lookup (deviceTokenOf m) (handleDeviceUpdate t m st).liveDevices =
        some (mkSnapshot t m) ∧
      (mkSnapshot t m).lastUpdateAt = t) := by
  refine ⟨fun h => by simp [handleDeviceUpdate, h], fun h => by simp [handleDeviceUpdate, h],
    fun s hs hl => ?_⟩
  have hover : overspeedMphOf (posOf m) = 0 := by
    unfold overspeedMphOf
    rw [hs, hl]
    simp
  have hrisk : riskLevelOf (posOf m) = Risk.none := by
    unfold riskLevelOf
    rw [hover]
    exact classifyRisk_of_lt_five (by norm_num)
  refine ⟨hover, hrisk, by simp [handleDeviceUpdate, hrisk], ?_, rfl⟩
  simp only [handleDeviceUpdate]
  exact lookup_upsert_self _ _ _

/-- Witness for C3 at the concrete message `sampleEqualMsg`
(speed = limit = 10 m/s). -/
theorem riskEvent_appended_iff_witness :
    overspeedMphOf (posOf sampleEqualMsg) = 0 ∧
    riskLevelOf (posOf sampleEqualMsg) = Risk.none ∧
    (handleDeviceUpdate 5 sampleEqualMsg initialPipelineState).liveEvents =
      initialPipelineState.liveEvents ∧
    lookup (deviceTokenOf sampleEqualMsg)
      (handleDeviceUpdate 5 sampleEqualMsg initialPipelineState).liveDevices =
      some (mkSnapshot 5 sampleEqualMsg) ∧
    (mkSnapshot 5 sampleEqualMsg).lastUpdateAt = 5 :=
  (riskEvent_appended_iff 5 sampleEqualMsg initialPipelineState).2.2 10 rfl rfl

/-- C4: `handleDeviceUpdate` keeps exactly one snapshot per device token: a
first update for an unseen token adds exactly one entry, a later update for a
known token replaces the entry without changing the entry count, the stored
snapshot is `mkSnapshot t m` — built from the new message alone, so derived
fields are replaced wholesale rather than merged and `raw` is the most recent
message — other tokens are untouched, and key-uniqueness of the store is
preserved. -/
theorem snapshot_replaced_wholesale (t : Nat) (m : DeviceUpdateMsg) (st : PipelineState) :
    (lookup (deviceTokenOf m) st.liveDevices = Option.none →
      (handleDeviceUpdate t m st).liveDevices.length = st.liveDevices.length + 1) ∧
    (∀ old, lookup (deviceTokenOf m) st.liveDevices = some old →
      (handleDeviceUpdate t m st).liveDevices.length = st.liveDevices.length) ∧
    lookup (deviceTokenOf m) (handleDeviceUpdate t m st).liveDevices =
      some (mkSnapshot t m) ∧
    (∀ k, k ≠ deviceTokenOf m →
      lookup k (handleDeviceUpdate t m st).liveDevices = lookup k st.liveDevices) ∧
    (mkSnapshot t m).raw = m ∧
    ((st.liveDevices.map Prod.fst).Nodup →
      ((handleDeviceUpdate t m st).liveDevices.map Prod.fst).Nodup) := by
  refine ⟨?_, ?_, ?_, ?_, rfl, ?_⟩
  · intro h
    simp only [handleDeviceUpdate]
    exact length_upsert_of_lookup_none _ _ _ h
  · intro old h
    simp only [handleDeviceUpdate]
    exact length_upsert_of_lookup_some _ _ _ old h
  · simp only [handleDeviceUpdate]
    exact lookup_upsert_self _ _ _
  · intro k hk
    simp only [handleDeviceUpdate]
    exact lookup_upsert_ne _ _ _ hk _
  · intro h
    simp only [handleDeviceUpdate]
    exact nodup_upsert _ _ _ h

/-- Witness for C4: a first update for `sampleRiskyMsg`'s token adds one
entry, and a second update for the same token replaces it, keeping the count
at one and storing the second message's snapshot. -/
theorem snapshot_replaced_wholesale_witness :
    (handleDeviceUpdate 1 sampleRiskyMsg initialPipelineState).liveDevices.length =
      initialPipelineState.liveDevices.length + 1 ∧
    (handleDeviceUpdate 2 sampleRiskyMsg
        (handleDeviceUpdate 1 sampleRiskyMsg initialPipelineState)).liveDevices.length =
      (handleDeviceUpdate 1 sampleRiskyMsg initialPipelineState).liveDevices.length ∧
    lookup (deviceTokenOf sampleRiskyMsg)
      (handleDeviceUpdate 2 sampleRiskyMsg
        (handleDeviceUpdate 1 sampleRiskyMsg initialPipelineState)).liveDevices =
      some (mkSnapshot 2 sampleRiskyMsg) :=
  ⟨(snapshot_replaced_wholesale 1 sampleRiskyMsg initialPipelineState).1 rfl,
   (snapshot_replaced_wholesale 2 sampleRiskyMsg
      (handleDeviceUpdate 1 sampleRiskyMsg initialPipelineState)).2.1
     (mkSnapshot 1 sampleRiskyMsg) rfl,
   (snapshot_replaced_wholesale 2 sampleRiskyMsg
      (handleDeviceUpdate 1 sampleRiskyMsg initialPipelineState)).2.2.1⟩

/-- C10: when the speed or the speed-limit field of a `device_update` is
absent or not numeric, `handleDeviceUpdate` still writes a snapshot for the
device — storing the unparsable field as `null`, `overspeedMph = 0` and
`riskLevel = 'none'` — and appends no `RiskEvent`. -/
theorem missing_speed_fields_snapshot (t : Nat) (m : DeviceUpdateMsg) (st : PipelineState)
    (h : speedMpsOf (posOf m) = Option.none ∨ speedLimitMpsOf (posOf m) = Option.none) :
    overspeedMphOf (posOf m) = 0 ∧
    riskLevelOf (posOf m) = Risk.none ∧
    (handleDeviceUpdate t m st).liveEvents = st.liveEvents ∧
    lookup (deviceTokenOf m) (handleDeviceUpdate t m st).liveDevices =
      some (mkSnapshot t m) ∧
    (mkSnapshot t m).speedMps = speedMpsOf (posOf m) ∧
    (mkSnapshot t m).speedLimitMps = speedLimitMpsOf (posOf m) ∧
    (mkSnapshot t m).overspeedMph = 0 ∧
    (mkSnapshot t m).riskLevel = Risk.none := by
  have hover : overspeedMphOf (posOf m) = 0 := by
    unfold overspeedMphOf
    rcases h with h | h <;>
      cases hs : speedMpsOf (posOf m) <;>
      cases hl : speedLimitMpsOf (posOf m) <;>
      simp_all
  have hrisk : riskLevelOf (posOf m) = Risk.none := by
    unfold riskLevelOf
    rw [hover]
    exact classifyRisk_of_lt_five (by norm_num)
  refine ⟨hover, hrisk, by simp [handleDeviceUpdate, hrisk], ?_, rfl, rfl, ?_, ?_⟩
  · simp only [handleDeviceUpdate]
    exact lookup_upsert_self _ _ _
  · exact hover
  · exact hrisk

/-- Witness for C10 at the concrete message `sampleNoSpeedMsg` (limit present,
speed fields absent). -/
theorem missing_speed_fields_snapshot_witness :
    overspeedMphOf (posOf sampleNoSpeedMsg) = 0 ∧
    riskLevelOf (posOf sampleNoSpeedMsg) = Risk.none ∧
    (handleDeviceUpdate 4 sampleNoSpeedMsg initialPipelineState).liveEvents =
      initialPipelineState.liveEvents ∧
    lookup (deviceTokenOf sampleNoSpeedMsg)
      (handleDeviceUpdate 4 sampleNoSpeedMsg initialPipelineState).liveDevices =
      some (mkSnapshot 4 sampleNoSpeedMsg) ∧
    (mkSnapshot 4 sampleNoSpeedMsg).speedMps = speedMpsOf (posOf sampleNoSpeedMsg) ∧
    (mkSnapshot 4 sampleNoSpeedMsg).speedLimitMps =
      speedLimitMpsOf (posOf sampleNoSpeedMsg) ∧
    (mkSnapshot 4 sampleNoSpeedMsg).overspeedMph = 0 ∧
    (mkSnapshot 4 sampleNoSpeedMsg).riskLevel = Risk.none :=
  missing_speed_fields_snapshot 4 sampleNoSpeedMsg initialPipelineState (Or.inl rfl)

end Pipeline

namespace AuthReconnect

/-- C7: on an `error` message whose code is 401 or 403, the handler clears
the cached credential and replaces it with exactly the outcome of a fresh
login exchange (so the old JWT is never kept), issues that login exchange
whenever credentials are configured, closes the current transport, and
schedules the reconnect on the shortened 5-second delay — strictly shorter
than the ordinary 60-second close delay, which this path never schedules —
so the error is recovered from rather than fatal. -/
theorem authError_recovery (code : Int) (st : ConnState) (o : LoginOutcome)
    (hcode : code = 401 ∨ code = 403) :
    (handleErrorMessage code st o).1.currentJwt =
      (loginForRealtime { st with currentJwt := Option.none } o).2.1 ∧
    (o ≠ LoginOutcome.missingCreds →
      ConnAction.loginExchange ∈ (handleErrorMessage code st o).2) ∧
    ConnAction.closeSocket ∈ (handleErrorMessage code st o).2 ∧
    (handleErrorMessage code st o).1.socketOpen = false ∧
    ConnAction.scheduleReconnect SHORT_RECONNECT_DELAY_MS ∈
      (handleErrorMessage code st o).2 ∧
    SHORT_RECONNECT_DELAY_MS < ORDINARY_RECONNECT_DELAY_MS ∧
    ConnAction.scheduleReconnect ORDINARY_RECONNECT_DELAY_MS ∉
      (handleErrorMessage code st o).2 := by
  have hif : handleErrorMessage code st o = handleAuthErrorAndReconnect st o := by
    unfold handleErrorMessage
    rw [if_pos hcode]
  rw [hif]
  refine ⟨?_, ?_, ?_, ?_, ?_, by decide, ?_⟩ <;>
    cases o <;>
    first
      | (rename_i token
         by_cases htok : token = "" <;>
           simp [handleAuthErrorAndReconnect, loginForRealtime, htok,
             SHORT_RECONNECT_DELAY_MS, ORDINARY_RECONNECT_DELAY_MS])
      | simp [handleAuthErrorAndReconnect, loginForRealtime,
          SHORT_RECONNECT_DELAY_MS, ORDINARY_RECONNECT_DELAY_MS]

/-- Witness for C7: a 401 error with a stale JWT cached and a successful
re-login ends with the fresh JWT, a login exchange performed, the socket
closed and the short reconnect scheduled. -/
theorem authError_recovery_witness :
    (handleErrorMessage 401 ⟨some "expired-jwt", true⟩
      (LoginOutcome.success "fresh-jwt")).1.currentJwt = some "fresh-jwt" ∧
    ConnAction.loginExchange ∈ (handleErrorMessage 401 ⟨some "expired-jwt", true⟩
      (LoginOutcome.success "fresh-jwt")).2 ∧
    (handleErrorMessage 401 ⟨some "expired-jwt", true⟩
      (LoginOutcome.success "fresh-jwt")).1.socketOpen = false ∧
    ConnAction.scheduleReconnect SHORT_RECONNECT_DELAY_MS ∈
      (handleErrorMessage 401 ⟨some "expired-jwt", true⟩
        (LoginOutcome.success "fresh-jwt")).2 :=
  ⟨(authError_recovery 401 ⟨some "expired-jwt", true⟩ (LoginOutcome.success "fresh-jwt")
      (Or.inl rfl)).1.trans rfl,
   (authError_recovery 401 ⟨some "expired-jwt", true⟩ (LoginOutcome.success "fresh-jwt")
      (Or.inl rfl)).2.1 (by decide),
   (authError_recovery 401 ⟨some "expired-jwt", true⟩ (LoginOutcome.success "fresh-jwt")
      (Or.inl rfl)).2.2.2.1,
   (authError_recovery 401 ⟨some "expired-jwt", true⟩ (LoginOutcome.success "fresh-jwt")
      (Or.inl rfl)).2.2.2.2.1⟩

end AuthReconnect

namespace RealtimeAuth

/-- C8 counterexample: two concurrent callers that both run their cache check
(schedule `[0, 1, 0, 1]`: both check, then both resume) while no valid cached
credential exists issue TWO login exchanges, not exactly one — `getRealtimeJwt`
has no refresh-in-progress guard. -/
theorem getRealtimeJwt_duplicate_exchanges :
    (runSchedule 0 "fresh-jwt" 86400 [0, 1, 0, 1] (initConc 2)).exchanges = 2 ∧
    (2 : Nat) ≠ 1 :=
  ⟨rfl, by decide⟩

/-- C8 amended: while the cache is unusable, every caller that reaches its
cache check issues its own login exchange — even when another caller's
exchange is already in flight — so `N` concurrent callers can issue up to `N`
exchanges instead of one. -/
theorem getRealtimeJwt_no_single_flight (now : Int) (freshTok : String)
    (expiresInSec : Int) (i : Nat) (st : ConcState)
    (hready : st.callers.get? i = some CallerPhase.ready)
    (hinvalid : cacheUsable st.cachedToken st.cachedExpiresAt now = false) :
    (stepCaller now freshTok expiresInSec i st).exchanges = st.exchanges + 1 := by
  simp only [stepCaller, hready, hinvalid]
  simp

/-- Witness for C8's amended statement: with caller 0 already suspended on
its own exchange, caller 1's cache check still issues a second exchange. -/
theorem getRealtimeJwt_no_single_flight_witness :
    (stepCaller 0 "fresh-jwt" 86400 1
        (stepCaller 0 "fresh-jwt" 86400 0 (initConc 2))).exchanges =
      (stepCaller 0 "fresh-jwt" 86400 0 (initConc 2)).exchanges + 1 :=
  getRealtimeJwt_no_single_flight 0 "fresh-jwt" 86400 1
    (stepCaller 0 "fresh-jwt" 86400 0 (initConc 2)) rfl rfl

end RealtimeAuth

end WilsonTelematics
